import Mathlib

/-!
Shallow embedding of `src/streamlit_app.py` (Ayurveda OPD dashboard).

The program is a single Streamlit script: an "entry" view appends one OPD
record to a Google sheet (`sheet.append_row`, lines 70-81), an "overview"
view reads all records back (`get_all_records`, lines 91-94), optionally
filters them by a selected date (lines 106-107), and computes KPI metrics
and charts with pandas (lines 110-126).  A module-level prompt section
(lines 140-194) builds a fixed-template prompt around the serialized
record set and sends it to a chat-completion endpoint.

Python-level behaviours that matter to the embedding are modelled
explicitly: cell values are a tagged union (`PyVal`) because Python `==`
between a `str` cell and a `datetime.date` object is `False` (no
cross-type equality), and subscripting an empty sequence raises, which is
modelled with `Except`.
-/

/-- Python `datetime.date` value: year, month, day. -/
structure PyDate where
  year : Nat
  month : Nat
  day : Nat
deriving DecidableEq

/-- Zero-padded two-digit rendering used by `date.__str__` for month/day. -/
def pad2 (n : Nat) : String :=
  if n < 10 then "0" ++ toString n else toString n

/-- Python `str(d)` for a `datetime.date`: the ISO string `YYYY-MM-DD`.
This is what `append_row` stores for the `Date` column (line 73). -/
def pyDateStr (d : PyDate) : String :=
  toString d.year ++ "-" ++ pad2 d.month ++ "-" ++ pad2 d.day

/-- A spreadsheet cell value as seen through gspread: strings stay
strings, numeric cells come back as integers; a `datetime.date` is a
distinct runtime type (it is never stored, only compared against). -/
inductive PyVal where
  | str : String → PyVal
  | int : Nat → PyVal
  | date : PyDate → PyVal
deriving DecidableEq

/-- Python `==` restricted to the value types that occur in the script.
Values of different runtime types compare unequal: in particular a stored
ISO date string is never `==` to a `datetime.date` object.  This is the
semantics of line 107, `df["Date"] == selected_date`, where the column
holds strings and `selected_date` is a `datetime.date`. -/
def pyEqVal : PyVal → PyVal → Bool
  | PyVal.str a, PyVal.str b => a == b
  | PyVal.int a, PyVal.int b => a == b
  | PyVal.date a, PyVal.date b => a.year == b.year && a.month == b.month && a.day == b.day
  | _, _ => false

/-- One row of the sheet as returned by `get_all_records` and consumed by
the overview code: the eight schema fields, with `date` already the ISO
string produced at append time. -/
structure OPDRecord where
  date : String
  name : String
  age : Nat
  gender : String
  prakriti : String
  complaint : String
  diagnosis : String
  follow_up : String
deriving DecidableEq

/-- Lines 106-107: `if selected_date: df = df[df["Date"] == selected_date]`.
With no selected date (the widget's initial `None` is falsy) the frame is
untouched; otherwise rows are kept when the string cell `==` the selected
`datetime.date` object. -/
def filterByDate (df : List OPDRecord) (sel : Option PyDate) : List OPDRecord :=
  match sel with
  | none => df
  | some d => df.filter (fun r => pyEqVal (PyVal.str r.date) (PyVal.date d))

/-- Occurrence count of a value in a column, the quantity underlying
pandas `value_counts` and `mode`. -/
def countOcc (v : String) : List String → Nat
  | [] => 0
  | a :: t => (if a = v then 1 else 0) + countOcc v t

/-- Maximum of a list of naturals (0 on empty). -/
def listMax : List Nat → Nat
  | [] => 0
  | n :: t => max n (listMax t)

/-- Python `<=` on strings, used to model the ascending order in which
pandas `Series.mode` returns the most frequent values. -/
def pyStrLe (a b : String) : Bool :=
  a < b || a == b

/-- Insert into a sorted list of strings. -/
def insertSorted (a : String) : List String → List String
  | [] => [a]
  | b :: t => if pyStrLe a b then a :: b :: t else b :: insertSorted a t

/-- Insertion sort on strings (ascending). -/
def sortStrings : List String → List String
  | [] => []
  | a :: t => insertSorted a (sortStrings t)

/-- Pandas `Series.mode()`: the distinct values attaining the maximal
occurrence count, in ascending order.  Empty input gives an empty mode
series. -/
def seriesModes (xs : List String) : List String :=
  sortStrings ((xs.dedup).filter
    (fun v => countOcc v xs == listMax (xs.dedup.map (fun w => countOcc w xs))))

/-- Python `seq[0]`: raises `IndexError` on an empty sequence. -/
def pySubscript0 {α : Type} : List α → Except String α
  | [] => Except.error "IndexError: index 0 is out of bounds"
  | a :: _ => Except.ok a

/-- Pandas `value_counts()` viewed as the frequency mapping it denotes:
each distinct value paired with its occurrence count.  (Pandas orders the
pairs by descending count; the script only uses the result as a mapping —
`.get("Yes", 0)` and bar charts — so the mapping content is what is
modelled.) -/
def valueCounts (xs : List String) : List (String × Nat) :=
  xs.dedup.map (fun v => (v, countOcc v xs))

/-- Association lookup on the frequency mapping, Python `.get(k, d)`. -/
def lookupStr (k : String) : List (String × Nat) → Option Nat
  | [] => none
  | (a, n) :: t => if a = k then some n else lookupStr k t

/-- Line 113: `df["FollowUp"].value_counts().get("Yes", 0)`. -/
def valueCountsGet (xs : List String) (k : String) (d : Nat) : Nat :=
  (lookupStr k (valueCounts xs)).getD d

/-- What the overview view renders: either the "No OPD data available"
info message (line 97, when the fetched frame is empty), or the KPI row
plus charts — total patients, follow-up count, top diagnosis, dominant
prakriti, and the two frequency charts (lines 110-126). -/
inductive OverviewOutput where
  | emptyInfo : OverviewOutput
  | kpis : Nat → Nat → String → String → List (String × Nat) → List (String × Nat) → OverviewOutput
deriving DecidableEq

/-- The `mode()[0] if not df.empty else "-"` result as a total value:
head of the mode series, `"-"` when there is none.  Used only to state
what the guarded expression evaluates to. -/
def topField (xs : List String) : String :=
  match seriesModes xs with
  | [] => "-"
  | m :: _ => m

/-- Lines 89-126, the overview branch: fetch `records`, short-circuit to
the info message when the frame is empty, otherwise filter by the
selected date and compute the four KPI metrics and the two chart
mappings.  The two `mode()[0]` subscripts are fallible (they would raise
on an empty series) and are guarded by the `if not df.empty else "-"`
ternaries of lines 114-115; `Except` carries any raised error. -/
def renderOverviewE (records : List OPDRecord) (sel : Option PyDate) :
    Except String OverviewOutput :=
  if records.isEmpty then Except.ok OverviewOutput.emptyInfo
  else
    let df := filterByDate records sel
    match (if df.isEmpty then Except.ok "-"
           else pySubscript0 (seriesModes (df.map (fun r => r.diagnosis)))),
          (if df.isEmpty then Except.ok "-"
           else pySubscript0 (seriesModes (df.map (fun r => r.prakriti)))) with
    | Except.ok td, Except.ok tp =>
        Except.ok (OverviewOutput.kpis df.length
          (valueCountsGet (df.map (fun r => r.follow_up)) "Yes" 0)
          td tp
          (valueCounts (df.map (fun r => r.diagnosis)))
          (valueCounts (df.map (fun r => r.prakriti))))
    | Except.error e, _ => Except.error e
    | _, Except.error e => Except.error e

/-- The KPI output computed over a (filtered) frame, as rendered by lines
110-126 when no subscript raises. -/
def overviewKpis (df : List OPDRecord) : OverviewOutput :=
  OverviewOutput.kpis df.length
    (valueCountsGet (df.map (fun r => r.follow_up)) "Yes" 0)
    (topField (df.map (fun r => r.diagnosis)))
    (topField (df.map (fun r => r.prakriti)))
    (valueCounts (df.map (fun r => r.diagnosis)))
    (valueCounts (df.map (fun r => r.prakriti)))

/-- Does an overview output report a KPI row with total 0 and both "top"
fields rendered as the placeholder `"-"`?  (The shape claim C3 asserts
for every empty state, the empty store included.) -/
def isKpiZeroDash : OverviewOutput → Bool
  | OverviewOutput.kpis 0 _ "-" "-" _ _ => true
  | _ => false

/-- Serialization of one fetched record under Python `str()` of the dict
that `get_all_records` yields: single-quoted keys in header order,
single-quoted string values, the integer age bare.  (Python `repr`
escaping of quote characters inside field values is not modelled; no
claim depends on it.) -/
def recordToPyDict (r : OPDRecord) : String :=
  "\x7b\x27Date\x27: \x27" ++ r.date ++ "\x27, \x27Name\x27: \x27" ++ r.name ++
    "\x27, \x27Age\x27: " ++ toString r.age ++ ", \x27Gender\x27: \x27" ++ r.gender ++
    "\x27, \x27Prakriti\x27: \x27" ++ r.prakriti ++ "\x27, \x27Complaint\x27: \x27" ++
    r.complaint ++ "\x27, \x27Diagnosis\x27: \x27" ++ r.diagnosis ++
    "\x27, \x27FollowUp\x27: \x27" ++ r.follow_up ++ "\x27\x7d"

/-- Line 94 / line 152: `opd_json = df.to_dict(orient="records")` as it
prints inside the f-string — the Python list-of-dicts literal. -/
def serializeRecords (rs : List OPDRecord) : String :=
  "[" ++ (String.intercalate ", " (rs.map recordToPyDict) ++ "]")

/-- Fixed template text of `build_opd_prompt` before the `{opd_json}`
interpolation (lines 141-151): role statement and the five STRICT RULES. -/
def promptHead : String :=
  "\nYou are assisting an Ayurvedic doctor.\n\nSTRICT RULES:\n- Do NOT diagnose\n- Do NOT suggest medicines\n- Do NOT change treatment\n- Only summarize and observe patterns\n- Use simple, non-alarming language\n\nOPD DATA:\n"

/-- Fixed template text between `{opd_json}` and `{user_prompt}`
(lines 153-155): the TASK header and the fixed part of item 1. -/
def promptTask : String :=
  "\n\nTASK:\n1. Give a short OPD summary + "

/-- Fixed template text after `{user_prompt}` (lines 156-162): task
items 2-7. -/
def promptItems : String :=
  "\n2. List most common complaints\n3. List common diagnoses\n4. Mention prakriti trends\n5. Mention follow-up workload\n6. How Next week will be?\n7. How I can be Prepared?\n"

/-- Lines 140-162, `build_opd_prompt(opd_json, user_prompt)`: the
f-string template with its two interpolations. -/
def build_opd_prompt (opd_json : String) (user_prompt : String) : String :=
  promptHead ++ (opd_json ++ (promptTask ++ (user_prompt ++ promptItems)))

/-- `needle` occurs verbatim (contiguously) inside `hay`. -/
def strContains (hay needle : String) : Prop :=
  ∃ pre post : String, hay = pre ++ (needle ++ post)

/-- Does `needle` occur as a leading segment of `hay`? -/
def isPrefixChars : List Char → List Char → Bool
  | [], _ => true
  | _ :: _, [] => false
  | a :: t, b :: u => a == b && isPrefixChars t u

/-- Executable substring search over character lists. -/
def containsSub (needle : List Char) : List Char → Bool
  | [] => isPrefixChars needle []
  | b :: t => isPrefixChars needle (b :: t) || containsSub needle t

/-- Line 137 + 175-194: one click of "Generate Response".  The request
sent by `client.chat.completions.create` (lines 180-187): model
`"gpt-4o-mini"`, the two messages in source order — the built prompt as
the `user` message first, then the fixed `system` instruction — and
temperature 0.3 (modelled as the rational 3/10). -/
structure ChatMessage where
  role : String
  content : String
deriving DecidableEq

/-- One chat-completion request as assembled at lines 180-187. -/
structure InferenceRequest where
  model : String
  messages : List ChatMessage
  temperature : ℚ
deriving DecidableEq

/-- The fixed system-message content of line 184, verbatim (including
the source's spelling). -/
def systemInstruction : String :=
  "You are assiting ayurvedic doctor for his OPD summary and analysis"

/-- Python `str.isspace` characters relevant to `str.strip()` (the ASCII
whitespace set; further Unicode space characters behave the same way and
are not needed by any claim). -/
def pyIsSpace (c : Char) : Bool :=
  c == ' ' || c == '\t' || c == '\n' || c == '\r' || c == '\x0b' || c == '\x0c'

/-- Python `s.strip()`: drop leading and trailing whitespace. -/
def pyStrip (s : String) : String :=
  String.mk (((s.data.dropWhile pyIsSpace).reverse.dropWhile pyIsSpace).reverse)

/-- Outcome of one "Generate Response" click: either the non-fatal
warning of line 177 (no request leaves the machine) or exactly one
inference request. -/
inductive GenOutcome where
  | warning : GenOutcome
  | call : InferenceRequest → GenOutcome
deriving DecidableEq

/-- Lines 175-187: the click handler.  A blank (empty after `strip()`)
instruction takes the warning path; otherwise the one request is
assembled from the already-built prompt. -/
def generateClick (prompt : String) (user_prompt : String) : GenOutcome :=
  if pyStrip user_prompt = "" then GenOutcome.warning
  else GenOutcome.call
    ⟨"gpt-4o-mini", [⟨"user", prompt⟩, ⟨"system", systemInstruction⟩], 3 / 10⟩

/-- Line 189: `response.choices[0].message.content` — the displayed text
is the first choice of the response (raising if there is none). -/
def displayFirstChoice (choices : List String) : Except String String :=
  pySubscript0 choices

/-- Roles of the messages of the request a click issued, if any. -/
def outcomeRoles : GenOutcome → Option (List String)
  | GenOutcome.warning => none
  | GenOutcome.call req => some (req.messages.map (fun m => m.role))

/-- The sheet header required by the aggregator's by-name lookups
(first row of the store). -/
def opdHeader : List String :=
  ["Date", "Name", "Age", "Gender", "Prakriti", "Complaint", "Diagnosis", "FollowUp"]

/-- The eight form inputs of the entry view (lines 52-62), before
serialization. -/
structure FormInput where
  opd_date : PyDate
  patient_name : String
  age : Nat
  gender : String
  prakriti : String
  complaint : String
  diagnosis : String
  follow_up : String
deriving DecidableEq

/-- Validity as enforced by the entry widgets: age bounded by 120 (the
`number_input` bounds) and the three selectboxes restricted to their
option lists. -/
def FormInput.Valid (f : FormInput) : Prop :=
  f.age ≤ 120 ∧ f.gender ∈ ["Male", "Female", "Other"] ∧
    f.prakriti ∈ ["Vata", "Pitta", "Kapha", "Vata-Pitta", "Pitta-Kapha", "Vata-Kapha"] ∧
    f.follow_up ∈ ["Yes", "No"]

/-- Lines 72-81: the row passed to `sheet.append_row` — the eight fields
in schema order, the date serialized with `str()`, the age a number. -/
def formRow (f : FormInput) : List PyVal :=
  [PyVal.str (pyDateStr f.opd_date), PyVal.str f.patient_name, PyVal.int f.age,
    PyVal.str f.gender, PyVal.str f.prakriti, PyVal.str f.complaint,
    PyVal.str f.diagnosis, PyVal.str f.follow_up]

/-- The spreadsheet: a header row naming the columns and the data rows
in store order (appends go to the end). -/
structure Sheet where
  header : List String
  rows : List (List PyVal)
deriving DecidableEq

/-- `sheet.append_row(row)` (line 72): writes `row` as the new last data
row. -/
def Sheet.appendRow (s : Sheet) (row : List PyVal) : Sheet :=
  ⟨s.header, s.rows ++ [row]⟩

/-- `sheet.get_all_records()` (line 92): every data row as a mapping
from column name (taken from the header row) to cell value, in store
order. -/
def Sheet.getAllRecords (s : Sheet) : List (List (String × PyVal)) :=
  s.rows.map (fun row => s.header.zip row)

/-- The NameError message raised by the module-level prompt section when
`opd_json` was never assigned in the render. -/
def nameErrorMsg : String := "NameError: name opd_json is not defined"

/-- One render of the script (lines 48-173) up to and including the
module-level prompt construction of line 173.  In the "entry" view the
overview branch (lines 89-130) does not run, so the name `opd_json`
(assigned only at line 94) is undefined when line 173 evaluates — a
NameError.  In any other view the overview branch runs first and the
prompt is built from the serialized unfiltered record set. -/
def renderPage (view : String) (records : List OPDRecord) (sel : Option PyDate)
    (user_prompt : String) : Except String (OverviewOutput × String) :=
  if view = "entry" then Except.error nameErrorMsg
  else
    match renderOverviewE records sel with
    | Except.error e => Except.error e
    | Except.ok ov =>
        Except.ok (ov, build_opd_prompt (serializeRecords records) user_prompt)

theorem insertSorted_length (a : String) (l : List String) :
    (insertSorted a l).length = l.length + 1 := by
  induction l with
  | nil => rfl
  | cons b t ih =>
      by_cases h : pyStrLe a b = true
      · simp [insertSorted, h]
      · simp [insertSorted, h, ih]

theorem sortStrings_length (l : List String) :
    (sortStrings l).length = l.length := by
  induction l with
  | nil => rfl
  | cons a t ih => simp [sortStrings, insertSorted_length, ih]

theorem listMax_mem (l : List Nat) (h : l ≠ []) : listMax l ∈ l := by
  induction l with
  | nil => exact absurd rfl h
  | cons n t ih =>
      cases t with
      | nil => simp [listMax]
      | cons m s =>
          have h1 : listMax (n :: m :: s) = max n (listMax (m :: s)) := rfl
          rcases le_total (listMax (m :: s)) n with hle | hle
          · rw [h1, Nat.max_eq_left hle]
            exact List.mem_cons_self n (m :: s)
          · rw [h1, Nat.max_eq_right hle]
            exact List.mem_cons_of_mem _ (ih (by simp))

theorem seriesModes_ne_nil (xs : List String) (h : xs ≠ []) :
    seriesModes xs ≠ [] := by
  have hd : xs.dedup ≠ [] := by
    intro hnil
    rcases List.exists_mem_of_ne_nil xs h with ⟨a, ha⟩
    have : a ∈ xs.dedup := List.mem_dedup.mpr ha
    rw [hnil] at this
    exact absurd this (List.not_mem_nil a)
  have hmap : xs.dedup.map (fun w => countOcc w xs) ≠ [] := by
    simpa using hd
  have hmem := listMax_mem _ hmap
  rcases List.mem_map.mp hmem with ⟨v, hv, hcv⟩
  have hfil : v ∈ (xs.dedup).filter
      (fun v => countOcc v xs == listMax (xs.dedup.map (fun w => countOcc w xs))) := by
    apply List.mem_filter.mpr
    exact ⟨hv, by simp [hcv]⟩
  intro hnil
  have hlen : (seriesModes xs).length = 0 := by rw [hnil]; rfl
  rw [seriesModes, sortStrings_length] at hlen
  have : ((xs.dedup).filter
      (fun v => countOcc v xs == listMax (xs.dedup.map (fun w => countOcc w xs)))) = [] :=
    List.eq_nil_of_length_eq_zero hlen
  rw [this] at hfil
  exact absurd hfil (List.not_mem_nil v)

theorem renderOverviewE_cons (r : OPDRecord) (rs : List OPDRecord) (sel : Option PyDate) :
    renderOverviewE (r :: rs) sel = Except.ok (overviewKpis (filterByDate (r :: rs) sel)) := by
  rw [renderOverviewE]
  simp only [List.isEmpty_cons, Bool.false_eq_true, if_false]
  by_cases hdf : (filterByDate (r :: rs) sel).isEmpty = true
  · have hnil : filterByDate (r :: rs) sel = [] := List.isEmpty_iff.mp hdf
    rw [hnil]
    rfl
  · have hne : filterByDate (r :: rs) sel ≠ [] := by
      intro hnil
      rw [hnil] at hdf
      exact hdf rfl
    have hdiag : (filterByDate (r :: rs) sel).map (fun r => r.diagnosis) ≠ [] := by
      simpa using hne
    have hprak : (filterByDate (r :: rs) sel).map (fun r => r.prakriti) ≠ [] := by
      simpa using hne
    have hmd := seriesModes_ne_nil _ hdiag
    have hmp := seriesModes_ne_nil _ hprak
    rcases hmodesd : seriesModes ((filterByDate (r :: rs) sel).map (fun r => r.diagnosis)) with
      _ | ⟨md, td⟩
    · exact absurd hmodesd hmd
    rcases hmodesp : seriesModes ((filterByDate (r :: rs) sel).map (fun r => r.prakriti)) with
      _ | ⟨mp, tp⟩
    · exact absurd hmodesp hmp
    simp [hdf, hmodesd, hmodesp, pySubscript0, overviewKpis, topField]

theorem renderOverviewE_ok (records : List OPDRecord) (sel : Option PyDate) :
    ∃ out, renderOverviewE records sel = Except.ok out := by
  cases records with
  | nil => exact ⟨OverviewOutput.emptyInfo, rfl⟩
  | cons r rs => exact ⟨overviewKpis (filterByDate (r :: rs) sel), renderOverviewE_cons r rs sel⟩

/-- C1: the overview date filter.  `append_row` stores `str(opd_date)`
(an ISO string) and the selected filter value is a `datetime.date`, so
`df["Date"] == selected_date` is elementwise `False`: no date is supplied
→ all records retained, but a supplied date retains nothing even when a
record's `Date` cell is exactly the serialization of that date. -/
theorem c1_date_filter_bug :
    pyDateStr ⟨2024, 1, 1⟩ = "2024-01-01" ∧
    filterByDate ([⟨"2024-01-01", "Asha", 30, "Female", "Vata", "cough", "Cold", "Yes"⟩] :
        List OPDRecord) none =
      ([⟨"2024-01-01", "Asha", 30, "Female", "Vata", "cough", "Cold", "Yes"⟩] :
        List OPDRecord) ∧
    filterByDate ([⟨"2024-01-01", "Asha", 30, "Female", "Vata", "cough", "Cold", "Yes"⟩] :
        List OPDRecord) (some ⟨2024, 1, 1⟩) = [] := by
  exact ⟨rfl, rfl, rfl⟩

/-- C2: the concrete three-record scenario.  Two records carry the
`Date` cell `"2024-01-01"` (the serialization of the selected date), yet
filtering the overview to 2024-01-01 yields total = 0, top diagnosis
`"-"` and an empty diagnosis-count mapping, because the string/date
comparison of line 107 never matches — not total = 2 / `"Cold"` /
`[("Cold", 2)]` as the scenario requires. -/
theorem c2_scenario_bug :
    renderOverviewE
        ([⟨"2024-01-01", "P1", 30, "Male", "Vata", "c1", "Cold", "Yes"⟩,
          ⟨"2024-01-01", "P2", 40, "Female", "Pitta", "c2", "Cold", "No"⟩,
          ⟨"2024-01-02", "P3", 50, "Other", "Kapha", "c3", "Fever", "Yes"⟩] :
          List OPDRecord) (some ⟨2024, 1, 1⟩) =
      Except.ok (OverviewOutput.kpis 0 0 "-" "-" [] []) ∧
    pyDateStr ⟨2024, 1, 1⟩ = "2024-01-01" := by
  exact ⟨rfl, rfl⟩

/-- C3 counterexample: on an empty store the overview branch
short-circuits at line 96 to the `st.info` message and never renders the
KPI row, so it does not report `total = 0` with `"-"` placeholders
there. -/
theorem c3_counterexample :
    renderOverviewE [] none = Except.ok OverviewOutput.emptyInfo ∧
    isKpiZeroDash OverviewOutput.emptyInfo = false := by
  exact ⟨rfl, rfl⟩

/-- C3 (amended): the overview aggregation never raises; an empty store
short-circuits to the informational message (no metrics), and a
non-empty store whose date-filtered set is empty reports total = 0,
follow-ups 0 and both "top" fields as `"-"`. -/
theorem c3_empty_handling (records : List OPDRecord) (sel : Option PyDate) :
    (∃ out, renderOverviewE records sel = Except.ok out) ∧
    (records = [] → renderOverviewE records sel = Except.ok OverviewOutput.emptyInfo) ∧
    (records ≠ [] → filterByDate records sel = [] →
      renderOverviewE records sel = Except.ok (OverviewOutput.kpis 0 0 "-" "-" [] [])) := by
  refine ⟨renderOverviewE_ok records sel, ?_, ?_⟩
  · intro h
    rw [h]
    rfl
  · intro hne hfil
    cases records with
    | nil => exact absurd rfl hne
    | cons r rs =>
        rw [renderOverviewE_cons, hfil]
        rfl

/-- Witness for `c3_empty_handling`: the empty store, and a one-record
store filtered to a date that matches no record. -/
theorem c3_empty_handling_witness :
    renderOverviewE [] none = Except.ok OverviewOutput.emptyInfo ∧
    renderOverviewE
        ([⟨"2024-01-01", "Asha", 30, "Female", "Vata", "cough", "Cold", "Yes"⟩] :
          List OPDRecord) (some ⟨2025, 5, 5⟩) =
      Except.ok (OverviewOutput.kpis 0 0 "-" "-" [] []) := by
  refine ⟨(c3_empty_handling [] none).2.1 rfl, ?_⟩
  exact (c3_empty_handling _ (some ⟨2025, 5, 5⟩)).2.2 (by simp) rfl

theorem countOcc_eq_zero_of_not_mem (v : String) (l : List String) (h : v ∉ l) :
    countOcc v l = 0 := by
  induction l with
  | nil => rfl
  | cons a t ih =>
      have ha : a ≠ v := fun hav => h (by rw [hav]; exact List.mem_cons_self v t)
      simp only [countOcc, if_neg ha, ih (fun hm => h (List.mem_cons_of_mem a hm))]

theorem lookupStr_map_self (k : String) (f : String → Nat) (l : List String) :
    lookupStr k (l.map (fun v => (v, f v))) = if k ∈ l then some (f k) else none := by
  induction l with
  | nil => rfl
  | cons a t ih =>
      simp only [List.map_cons, lookupStr]
      by_cases hak : a = k
      · subst hak
        simp
      · rw [if_neg hak, ih]
        have hiff : k ∈ a :: t ↔ k ∈ t := by
          constructor
          · intro h
            rcases List.mem_cons.mp h with h1 | h2
            · exact absurd h1.symm hak
            · exact h2
          · exact List.mem_cons_of_mem a
        by_cases hkt : k ∈ t
        · rw [if_pos hkt, if_pos (hiff.mpr hkt)]
        · rw [if_neg hkt, if_neg (fun hm => hkt (hiff.mp hm))]

theorem valueCountsGet_eq_countOcc (xs : List String) (k : String) :
    valueCountsGet xs k 0 = countOcc k xs := by
  rw [valueCountsGet, valueCounts, lookupStr_map_self]
  by_cases hk : k ∈ xs
  · rw [if_pos (List.mem_dedup.mpr hk)]
    rfl
  · rw [if_neg (fun hm => hk (List.mem_dedup.mp hm))]
    rw [countOcc_eq_zero_of_not_mem k xs hk]
    rfl

theorem countOcc_map_eq_filter_length (f : OPDRecord → String) (v : String)
    (l : List OPDRecord) :
    countOcc v (l.map f) = (l.filter (fun x => f x == v)).length := by
  induction l with
  | nil => rfl
  | cons a t ih =>
      by_cases hav : f a = v
      · simp [countOcc, List.filter_cons, hav, ih, Nat.add_comm]
      · simp [countOcc, List.filter_cons, hav, ih]

/-- C4: the follow-up KPI.  The mapping lookup
`value_counts().get("Yes", 0)` equals the number of rows whose
`FollowUp` cell is exactly `"Yes"` (0 when there are none, the length
when all are `"Yes"`), and the overview KPI row rendered for any
non-empty store carries exactly that count for its (filtered) frame. -/
theorem c4_follow_up_count :
    (∀ df : List OPDRecord,
      valueCountsGet (df.map (fun r => r.follow_up)) "Yes" 0 =
        (df.filter (fun r => r.follow_up == "Yes")).length) ∧
    (∀ (r : OPDRecord) (rs : List OPDRecord) (sel : Option PyDate),
      ∃ td tp dc pc, renderOverviewE (r :: rs) sel =
        Except.ok (OverviewOutput.kpis (filterByDate (r :: rs) sel).length
          ((filterByDate (r :: rs) sel).filter (fun x => x.follow_up == "Yes")).length
          td tp dc pc)) := by
  have hcount : ∀ df : List OPDRecord,
      valueCountsGet (df.map (fun r => r.follow_up)) "Yes" 0 =
        (df.filter (fun r => r.follow_up == "Yes")).length := by
    intro df
    rw [valueCountsGet_eq_countOcc, countOcc_map_eq_filter_length]
  refine ⟨hcount, ?_⟩
  intro r rs sel
  refine ⟨topField ((filterByDate (r :: rs) sel).map (fun x => x.diagnosis)),
    topField ((filterByDate (r :: rs) sel).map (fun x => x.prakriti)),
    valueCounts ((filterByDate (r :: rs) sel).map (fun x => x.diagnosis)),
    valueCounts ((filterByDate (r :: rs) sel).map (fun x => x.prakriti)), ?_⟩
  rw [renderOverviewE_cons, overviewKpis, hcount]

theorem strAppend_assoc (a b c : String) : (a ++ b) ++ c = a ++ (b ++ c) := by
  rcases a with ⟨la⟩
  rcases b with ⟨lb⟩
  rcases c with ⟨lc⟩
  show String.mk ((la ++ lb) ++ lc) = String.mk (la ++ (lb ++ lc))
  rw [List.append_assoc]

theorem strContains_decomp (A n p q : String) (h : A = p ++ (n ++ q)) :
    strContains A n :=
  ⟨p, q, h⟩

theorem strContains_right (A B n : String) (h : strContains B n) :
    strContains (A ++ B) n := by
  obtain ⟨p, q, hpq⟩ := h
  refine ⟨A ++ p, q, ?_⟩
  rw [hpq]
  exact (strAppend_assoc A p (n ++ q)).symm

theorem strContains_left (A B n : String) (h : strContains A n) :
    strContains (A ++ B) n := by
  obtain ⟨p, q, hpq⟩ := h
  refine ⟨p, q ++ B, ?_⟩
  rw [hpq, strAppend_assoc, strAppend_assoc]

theorem isPrefixChars_sound : ∀ (n h : List Char), isPrefixChars n h = true → ∃ q, h = n ++ q := by
  intro n
  induction n with
  | nil => exact fun h _ => ⟨h, rfl⟩
  | cons a t ih =>
      intro h hp
      cases h with
      | nil => exact absurd hp (by simp [isPrefixChars])
      | cons b u =>
          rw [isPrefixChars, Bool.and_eq_true] at hp
          obtain ⟨q, hq⟩ := ih u hp.2
          refine ⟨q, ?_⟩
          have hab : a = b := by
            have := hp.1
            simpa using this
          rw [hq, ← hab]
          rfl

theorem containsSub_sound (n : List Char) :
    ∀ h : List Char, containsSub n h = true → ∃ p q, h = p ++ (n ++ q) := by
  intro h
  induction h with
  | nil =>
      intro hc
      obtain ⟨q, hq⟩ := isPrefixChars_sound n [] hc
      exact ⟨[], q, hq⟩
  | cons b t ih =>
      intro hc
      rw [containsSub, Bool.or_eq_true] at hc
      rcases hc with hc | hc
      · obtain ⟨q, hq⟩ := isPrefixChars_sound n (b :: t) hc
        exact ⟨[], q, hq⟩
      · obtain ⟨p, q, hpq⟩ := ih hc
        exact ⟨b :: p, q, by rw [hpq]; rfl⟩

theorem strContains_of_sub (A n : String) (h : containsSub n.data A.data = true) :
    strContains A n := by
  obtain ⟨p, q, hpq⟩ := containsSub_sound n.data A.data h
  rcases A with ⟨la⟩
  rcases n with ⟨ln⟩
  refine ⟨⟨p⟩, ⟨q⟩, ?_⟩
  show String.mk la = String.mk (p ++ (ln ++ q))
  exact congrArg String.mk hpq

theorem all_of_dropWhile_all (p : Char → Bool) :
    ∀ l : List Char, (∀ x ∈ List.dropWhile p l, p x = true) → ∀ x ∈ l, p x = true := by
  intro l
  induction l with
  | nil => exact fun _ x hx => absurd hx (List.not_mem_nil x)
  | cons a t ih =>
      intro hall x hx
      by_cases hpa : p a = true
      · have hd : List.dropWhile p (a :: t) = List.dropWhile p t := by
          simp [List.dropWhile_cons, hpa]
        rcases List.mem_cons.mp hx with rfl | hxt
        · exact hpa
        · exact ih (fun y hy => hall y (by rw [hd]; exact hy)) x hxt
      · have hd : List.dropWhile p (a :: t) = a :: t := by
          simp [List.dropWhile_cons, hpa]
        rw [hd] at hall
        exact hall x hx

theorem dropWhile_eq_nil_of_all (p : Char → Bool) :
    ∀ l : List Char, (∀ x ∈ l, p x = true) → List.dropWhile p l = [] := by
  intro l
  induction l with
  | nil => exact fun _ => rfl
  | cons a t ih =>
      intro hall
      have hpa : p a = true := hall a (List.mem_cons_self a t)
      rw [List.dropWhile_cons, if_pos hpa]
      exact ih (fun x hx => hall x (List.mem_cons_of_mem a hx))

theorem pyStrip_eq_empty_iff (s : String) :
    pyStrip s = "" ↔ ∀ c ∈ s.data, pyIsSpace c = true := by
  constructor
  · intro h
    have hdata : ((s.data.dropWhile pyIsSpace).reverse.dropWhile pyIsSpace).reverse = [] := by
      have h2 := congrArg String.data h
      simpa [pyStrip] using h2
    rw [List.reverse_eq_nil_iff] at hdata
    have h1 : ∀ x ∈ (s.data.dropWhile pyIsSpace).reverse, pyIsSpace x = true :=
      all_of_dropWhile_all pyIsSpace _
        (by rw [hdata]; exact fun x hx => absurd hx (List.not_mem_nil x))
    exact all_of_dropWhile_all pyIsSpace s.data
      (fun x hx => h1 x (List.mem_reverse.mpr hx))
  · intro hall
    rw [pyStrip, dropWhile_eq_nil_of_all pyIsSpace s.data hall]
    rfl

theorem pyStrip_ne_empty_of_nonspace (s : String)
    (h : ∃ c ∈ s.data, pyIsSpace c = false) : pyStrip s ≠ "" := by
  obtain ⟨c, hc, hcs⟩ := h
  intro hstrip
  have := (pyStrip_eq_empty_iff s).mp hstrip c hc
  rw [hcs] at this
  exact Bool.false_ne_true this

/-- C5: the blank-instruction guard of lines 175-178.  An instruction
that is empty or whitespace-only always takes the warning path (the
outcome carries no request, so no network call is issued); an
instruction with at least one non-whitespace character always issues the
inference call. -/
theorem c5_blank_instruction_guard (prompt up : String) :
    ((∀ c ∈ up.data, pyIsSpace c = true) → generateClick prompt up = GenOutcome.warning) ∧
    ((∃ c ∈ up.data, pyIsSpace c = false) →
      ∃ req, generateClick prompt up = GenOutcome.call req) := by
  constructor
  · intro hall
    rw [generateClick, if_pos ((pyStrip_eq_empty_iff up).mpr hall)]
  · intro hex
    rw [generateClick, if_neg (pyStrip_ne_empty_of_nonspace up hex)]
    exact ⟨_, rfl⟩

/-- Witness for `c5_blank_instruction_guard`: a whitespace-only
instruction warns, a non-blank one calls. -/
theorem c5_blank_instruction_guard_witness :
    generateClick "P" " \t " = GenOutcome.warning ∧
    ∃ req, generateClick "P" "hi" = GenOutcome.call req := by
  exact ⟨(c5_blank_instruction_guard "P" " \t ").1 (by decide),
    (c5_blank_instruction_guard "P" "hi").2 ⟨'h', by decide, by decide⟩⟩

theorem build_prompt_contains_aux (j u n : String)
    (h : strContains promptHead n ∨ strContains promptTask n ∨ strContains promptItems n) :
    strContains (build_opd_prompt j u) n := by
  unfold build_opd_prompt
  rcases h with h | h | h
  · exact strContains_left _ _ _ h
  · exact strContains_right _ _ _ (strContains_right _ _ _ (strContains_left _ _ _ h))
  · exact strContains_right _ _ _ (strContains_right _ _ _
      (strContains_right _ _ _ (strContains_right _ _ _ h)))

/-- C6: for every record set (the empty set included) and every user
instruction, the prompt the overview render hands to the playground is
built from the serialized unfiltered record set (whatever date filter is
selected), and its text contains the serialized record set and each of
the template's fixed constraint and instruction phrases verbatim. -/
theorem c6_prompt_contents (records : List OPDRecord) (sel : Option PyDate) (up : String) :
    (∃ ov, renderPage "overview" records sel up =
      Except.ok (ov, build_opd_prompt (serializeRecords records) up)) ∧
    strContains (build_opd_prompt (serializeRecords records) up) (serializeRecords records) ∧
    strContains (build_opd_prompt (serializeRecords records) up) "- Do NOT diagnose" ∧
    strContains (build_opd_prompt (serializeRecords records) up) "- Do NOT suggest medicines" ∧
    strContains (build_opd_prompt (serializeRecords records) up) "- Do NOT change treatment" ∧
    strContains (build_opd_prompt (serializeRecords records) up)
      "- Only summarize and observe patterns" ∧
    strContains (build_opd_prompt (serializeRecords records) up)
      "- Use simple, non-alarming language" ∧
    strContains (build_opd_prompt (serializeRecords records) up)
      "1. Give a short OPD summary + " ∧
    strContains (build_opd_prompt (serializeRecords records) up)
      "2. List most common complaints" ∧
    strContains (build_opd_prompt (serializeRecords records) up) "3. List common diagnoses" ∧
    strContains (build_opd_prompt (serializeRecords records) up) "4. Mention prakriti trends" ∧
    strContains (build_opd_prompt (serializeRecords records) up)
      "5. Mention follow-up workload" ∧
    strContains (build_opd_prompt (serializeRecords records) up) "6. How Next week will be?" ∧
    strContains (build_opd_prompt (serializeRecords records) up) "7. How I can be Prepared?" := by
  refine ⟨?_, ?_, ?_, ?_, ?_, ?_, ?_, ?_, ?_, ?_, ?_, ?_, ?_, ?_⟩
  · obtain ⟨ov, hov⟩ := renderOverviewE_ok records sel
    refine ⟨ov, ?_⟩
    unfold renderPage
    rw [if_neg (by decide), hov]
  · exact strContains_decomp _ _ promptHead (promptTask ++ (up ++ promptItems)) rfl
  · exact build_prompt_contains_aux _ _ _ (Or.inl (strContains_of_sub _ _ (by decide)))
  · exact build_prompt_contains_aux _ _ _ (Or.inl (strContains_of_sub _ _ (by decide)))
  · exact build_prompt_contains_aux _ _ _ (Or.inl (strContains_of_sub _ _ (by decide)))
  · exact build_prompt_contains_aux _ _ _ (Or.inl (strContains_of_sub _ _ (by decide)))
  · exact build_prompt_contains_aux _ _ _ (Or.inl (strContains_of_sub _ _ (by decide)))
  · exact build_prompt_contains_aux _ _ _ (Or.inr (Or.inl (strContains_of_sub _ _ (by decide))))
  · exact build_prompt_contains_aux _ _ _ (Or.inr (Or.inr (strContains_of_sub _ _ (by decide))))
  · exact build_prompt_contains_aux _ _ _ (Or.inr (Or.inr (strContains_of_sub _ _ (by decide))))
  · exact build_prompt_contains_aux _ _ _ (Or.inr (Or.inr (strContains_of_sub _ _ (by decide))))
  · exact build_prompt_contains_aux _ _ _ (Or.inr (Or.inr (strContains_of_sub _ _ (by decide))))
  · exact build_prompt_contains_aux _ _ _ (Or.inr (Or.inr (strContains_of_sub _ _ (by decide))))
  · exact build_prompt_contains_aux _ _ _ (Or.inr (Or.inr (strContains_of_sub _ _ (by decide))))

/-- C7: `build_opd_prompt` is a pure function of its two arguments — it
is a total Lean function (no state, no effects, no network in the
embedding, matching the source body, which only formats a string), and
two calls on equal arguments return identical text. -/
theorem c7_build_prompt_deterministic (j₁ j₂ u₁ u₂ : String)
    (hj : j₁ = j₂) (hu : u₁ = u₂) :
    build_opd_prompt j₁ u₁ = build_opd_prompt j₂ u₂ := by
  rw [hj, hu]

/-- Witness for `c7_build_prompt_deterministic` at concrete arguments. -/
theorem c7_build_prompt_deterministic_witness :
    build_opd_prompt "[]" "Summarize" = build_opd_prompt "[]" "Summarize" :=
  c7_build_prompt_deterministic "[]" "[]" "Summarize" "Summarize" rfl rfl

/-- C8: round-trip through the store.  Appending the form row and
fetching all records yields, as the last record, the submitted values
under the eight schema column names in order (the date as its ISO
serialization, exactly what was submitted to `append_row`). -/
theorem c8_append_fetch_roundtrip (s : Sheet) (f : FormInput)
    (hheader : s.header = opdHeader) (_hv : f.Valid) :
    ((s.appendRow (formRow f)).getAllRecords).getLast? =
      some [("Date", PyVal.str (pyDateStr f.opd_date)),
        ("Name", PyVal.str f.patient_name),
        ("Age", PyVal.int f.age),
        ("Gender", PyVal.str f.gender),
        ("Prakriti", PyVal.str f.prakriti),
        ("Complaint", PyVal.str f.complaint),
        ("Diagnosis", PyVal.str f.diagnosis),
        ("FollowUp", PyVal.str f.follow_up)] := by
  unfold Sheet.appendRow Sheet.getAllRecords
  simp only [List.map_append, List.map_cons, List.map_nil]
  rw [List.getLast?_concat, hheader]
  rfl

/-- Witness for `c8_append_fetch_roundtrip`: a concrete valid submission
into an empty store. -/
theorem c8_append_fetch_roundtrip_witness :
    ((Sheet.appendRow ⟨opdHeader, []⟩
        (formRow ⟨⟨2024, 1, 2⟩, "Asha", 30, "Female", "Vata", "cough", "Cold",
          "Yes"⟩)).getAllRecords).getLast? =
      some [("Date", PyVal.str "2024-01-02"), ("Name", PyVal.str "Asha"),
        ("Age", PyVal.int 30), ("Gender", PyVal.str "Female"),
        ("Prakriti", PyVal.str "Vata"), ("Complaint", PyVal.str "cough"),
        ("Diagnosis", PyVal.str "Cold"), ("FollowUp", PyVal.str "Yes")] := by
  have hd : pyDateStr ⟨2024, 1, 2⟩ = "2024-01-02" := rfl
  rw [← hd]
  exact c8_append_fetch_roundtrip ⟨opdHeader, []⟩
    ⟨⟨2024, 1, 2⟩, "Asha", 30, "Female", "Vata", "cough", "Cold", "Yes"⟩ rfl
    ⟨by decide, by decide, by decide, by decide⟩

/-- C9 counterexample: the request assembled at lines 180-187 lists the
messages in the order user first, then system — not system then user as
the claim states. -/
theorem c9_counterexample :
    outcomeRoles (generateClick "P" "hi") = some ["user", "system"] ∧
    some ["user", "system"] ≠ some ["system", "user"] := by
  exact ⟨rfl, by decide⟩

/-- C9 (amended): every non-blank generate click issues exactly one
request — model `"gpt-4o-mini"`, temperature 0.3, and two messages in
the order user (the built prompt) then system (the fixed instruction
string of line 184, verbatim) — and the displayed result is the first
choice of the response, whatever further choices exist. -/
theorem c9_request_shape :
    (∀ prompt up : String, (∃ c ∈ up.data, pyIsSpace c = false) →
      generateClick prompt up = GenOutcome.call
        ⟨"gpt-4o-mini", [⟨"user", prompt⟩, ⟨"system", systemInstruction⟩], 3 / 10⟩) ∧
    (∀ (c : String) (rest : List String), displayFirstChoice (c :: rest) = Except.ok c) := by
  constructor
  · intro prompt up hex
    rw [generateClick, if_neg (pyStrip_ne_empty_of_nonspace up hex)]
  · intro c rest
    rfl

/-- Witness for `c9_request_shape` at concrete inputs. -/
theorem c9_request_shape_witness :
    generateClick "P" "hi" = GenOutcome.call
      ⟨"gpt-4o-mini", [⟨"user", "P"⟩, ⟨"system", systemInstruction⟩], 3 / 10⟩ ∧
    displayFirstChoice ["an answer", "other"] = Except.ok "an answer" := by
  exact ⟨c9_request_shape.1 "P" "hi" ⟨'h', by decide, by decide⟩,
    c9_request_shape.2 "an answer" ["other"]⟩

/-- C10: the module-level `build_opd_prompt(opd_json, user_prompt)` call
of line 173 runs on every render, but `opd_json` is assigned only inside
the overview branch (line 94).  A render resolves the name — raising no
NameError — exactly when the active view is not "entry", i.e. when the
overview branch executed in that render. -/
theorem c10_opd_json_name_resolution (view : String) (records : List OPDRecord)
    (sel : Option PyDate) (up : String) :
    renderPage view records sel up = Except.error nameErrorMsg ↔ view = "entry" := by
  constructor
  · intro h
    by_cases hv : view = "entry"
    · exact hv
    · exfalso
      obtain ⟨out, hout⟩ := renderOverviewE_ok records sel
      unfold renderPage at h
      rw [if_neg hv, hout] at h
      exact Except.noConfusion h
  · intro hv
    subst hv
    unfold renderPage
    rw [if_pos rfl]
